import Mathlib

/-!
Verification of the `evm-chains` crate (`src/lib.rs`): a read-only catalog of
EVM chain metadata built once from a directory of `eip155-<id>.json` files.

The embedding models:
* JSON values and the serde-derive deserializer for the `Chain` record
  (camelCase renaming, the `infoURL` override, `#[serde(default)]` on
  `explorers`, `Option` fields, unknown keys ignored, duplicate known keys
  rejected, all-or-nothing decoding);
* the serde-derive serializer for `Chain` (fields in declaration order,
  `None` serialized as `null`);
* `Chain::from_file` with its two error kinds (`Kind::File` when the file
  cannot be opened, `Kind::Json` when serde_json fails);
* the `CHAINS` lazy static: the directory walk, the file-name parsing via
  `strip_prefix("eip155-")` / `strip_suffix(".json")` / `parse::<u64>()`,
  the per-entry `Chain::from_file` call and the duplicate-id panic.

The filesystem is modelled as the listing of the one data directory: each
entry has a name, the file type that `DirEntry::file_type()` reports
(regular file, symlink to a file, directory, broken symlink — `file_type`
does not follow symlinks, so only regular files pass the build loop's
`is_file` test), and the outcome that reading the opened handle produces
(a read I/O fault, bytes that are not valid JSON, or a parsed document).
`File::open` follows symlinks, succeeds on a directory (whose first read
then faults with EISDIR), and fails on a broken symlink.
Panics of the static initializer are modelled as `Except.error BuildPanic`.
Machine integers are `Nat`/`Int` with explicit `2 ^ 64` / `2 ^ 63` bounds.
-/

namespace EvmChains

/-- JSON values as produced by the serde_json parser.  Numbers are modelled
as integers, which covers every numeric field of the chain schema. -/
inductive Json where
  | null
  | bool (b : Bool)
  | num (n : Int)
  | str (s : String)
  | arr (elems : List Json)
  | obj (fields : List (String × Json))

/-- Deserialization failures raised while mapping a JSON value onto the
record shape, with serde-derive semantics. -/
inductive DeError where
  | invalidType (expected : String)
  | missingField (field : String)
  | duplicateField (field : String)
  deriving DecidableEq

/-- The `nativeCurrency` sub-record.  `decimals` is an `i64` in the source,
modelled as `Int` with an explicit two's-complement range check. -/
structure NativeCurrency where
  name : String
  symbol : String
  decimals : Int
  deriving DecidableEq

/-- The `ens` sub-record. -/
structure Ens where
  registry : String
  deriving DecidableEq

/-- One block-explorer descriptor. -/
structure Explorer where
  name : String
  url : String
  standard : String
  deriving DecidableEq

/-- The `Chain` record of `src/lib.rs`.  `u64` fields are `Nat` (bounded at
decode time), `i64` is `Int`. -/
structure Chain where
  name : String
  chain : String
  network : String
  icon : Option String
  rpc : List String
  faucets : List String
  native_currency : NativeCurrency
  info_url : String
  short_name : String
  chain_id : Nat
  network_id : Nat
  slip44 : Option Nat
  ens : Option Ens
  explorers : List Explorer
  deriving DecidableEq

/-- serde: deserialize a `String` field. -/
def deString : Json → Except DeError String
  | .str s => .ok s
  | _ => .error (.invalidType "a string")

/-- serde: deserialize a `u64` field (any integer in `[0, 2^64)`). -/
def deU64 : Json → Except DeError Nat
  | .num n => if 0 ≤ n ∧ n < 2 ^ 64 then .ok n.toNat else .error (.invalidType "u64")
  | _ => .error (.invalidType "u64")

/-- serde: deserialize an `i64` field (any integer in `[-2^63, 2^63)`). -/
def deI64 : Json → Except DeError Int
  | .num n => if -2 ^ 63 ≤ n ∧ n < 2 ^ 63 then .ok n else .error (.invalidType "i64")
  | _ => .error (.invalidType "i64")

/-- serde: deserialize a `Vec<T>` given the element deserializer, element by
element, all-or-nothing. -/
def deList {α : Type} (de : Json → Except DeError α) : List Json → Except DeError (List α)
  | [] => .ok []
  | j :: rest =>
    match de j with
    | .error e => .error e
    | .ok x =>
      match deList de rest with
      | .error e => .error e
      | .ok xs => .ok (x :: xs)

/-- serde: deserialize a `Vec<T>` field (must be a JSON array). -/
def deSeq {α : Type} (de : Json → Except DeError α) : Json → Except DeError (List α)
  | .arr elems => deList de elems
  | _ => .error (.invalidType "a sequence")

/-- serde: deserialize an `Option<T>` field that is present: `null` maps to
`none`, anything else must deserialize as `T`. -/
def deOpt {α : Type} (de : Json → Except DeError α) : Json → Except DeError (Option α)
  | .null => .ok none
  | j => (de j).map some

/-- serde-derive bookkeeping for one known field: error on a duplicate,
otherwise run the field deserializer and store the value. -/
def putSlot {σ α : Type} (fieldName : String) (cur : Option α)
    (dec : Except DeError α) (set : α → σ) : Except DeError σ :=
  match cur with
  | some _ => .error (.duplicateField fieldName)
  | none =>
    match dec with
    | .error e => .error e
    | .ok v => .ok (set v)

/-- serde-derive bookkeeping: a required field must have been seen. -/
def req {α : Type} (fieldName : String) : Option α → Except DeError α
  | some v => .ok v
  | none => .error (.missingField fieldName)

/-- serde-derive visitor loop: fold the object's key/value pairs through the
per-field step function. -/
def scanFields {σ : Type} (step : σ → String × Json → Except DeError σ) :
    σ → List (String × Json) → Except DeError σ
  | st, [] => .ok st
  | st, kv :: rest =>
    match step st kv with
    | .error e => .error e
    | .ok st' => scanFields step st' rest

/-- Partially filled `NativeCurrency` during deserialization. -/
structure NCSlots where
  name : Option String := none
  symbol : Option String := none
  decimals : Option Int := none

/-- Field dispatch for `NativeCurrency` (camelCase keys; unknown keys are
ignored). -/
def ncStep (st : NCSlots) (kv : String × Json) : Except DeError NCSlots :=
  if kv.1 = "name" then
    putSlot "name" st.name (deString kv.2) (fun v => { st with name := some v })
  else if kv.1 = "symbol" then
    putSlot "symbol" st.symbol (deString kv.2) (fun v => { st with symbol := some v })
  else if kv.1 = "decimals" then
    putSlot "decimals" st.decimals (deI64 kv.2) (fun v => { st with decimals := some v })
  else
    .ok st

/-- Assemble a `NativeCurrency` once all pairs were visited. -/
def ncFinish (st : NCSlots) : Except DeError NativeCurrency :=
  match st.name, st.symbol, st.decimals with
  | some n, some s, some d => .ok { name := n, symbol := s, decimals := d }
  | none, _, _ => .error (.missingField "name")
  | _, none, _ => .error (.missingField "symbol")
  | _, _, none => .error (.missingField "decimals")

/-- serde deserializer for `NativeCurrency`. -/
def deNativeCurrency : Json → Except DeError NativeCurrency
  | .obj fields =>
    match scanFields ncStep {} fields with
    | .error e => .error e
    | .ok st => ncFinish st
  | _ => .error (.invalidType "struct NativeCurrency")

/-- Partially filled `Ens` during deserialization. -/
structure EnsSlots where
  registry : Option String := none

/-- Field dispatch for `Ens`. -/
def ensStep (st : EnsSlots) (kv : String × Json) : Except DeError EnsSlots :=
  if kv.1 = "registry" then
    putSlot "registry" st.registry (deString kv.2) (fun v => { st with registry := some v })
  else
    .ok st

/-- Assemble an `Ens` once all pairs were visited. -/
def ensFinish (st : EnsSlots) : Except DeError Ens :=
  match st.registry with
  | some r => .ok { registry := r }
  | none => .error (.missingField "registry")

/-- serde deserializer for `Ens`. -/
def deEns : Json → Except DeError Ens
  | .obj fields =>
    match scanFields ensStep {} fields with
    | .error e => .error e
    | .ok st => ensFinish st
  | _ => .error (.invalidType "struct Ens")

/-- Partially filled `Explorer` during deserialization. -/
structure ExpSlots where
  name : Option String := none
  url : Option String := none
  standard : Option String := none

/-- Field dispatch for `Explorer`. -/
def expStep (st : ExpSlots) (kv : String × Json) : Except DeError ExpSlots :=
  if kv.1 = "name" then
    putSlot "name" st.name (deString kv.2) (fun v => { st with name := some v })
  else if kv.1 = "url" then
    putSlot "url" st.url (deString kv.2) (fun v => { st with url := some v })
  else if kv.1 = "standard" then
    putSlot "standard" st.standard (deString kv.2) (fun v => { st with standard := some v })
  else
    .ok st

/-- Assemble an `Explorer` once all pairs were visited. -/
def expFinish (st : ExpSlots) : Except DeError Explorer :=
  match st.name, st.url, st.standard with
  | some n, some u, some s => .ok { name := n, url := u, standard := s }
  | none, _, _ => .error (.missingField "name")
  | _, none, _ => .error (.missingField "url")
  | _, _, none => .error (.missingField "standard")

/-- serde deserializer for `Explorer`. -/
def deExplorer : Json → Except DeError Explorer
  | .obj fields =>
    match scanFields expStep {} fields with
    | .error e => .error e
    | .ok st => expFinish st
  | _ => .error (.invalidType "struct Explorer")

/-- Partially filled `Chain` during deserialization. -/
structure ChainSlots where
  name : Option String := none
  chain : Option String := none
  network : Option String := none
  icon : Option (Option String) := none
  rpc : Option (List String) := none
  faucets : Option (List String) := none
  native_currency : Option NativeCurrency := none
  info_url : Option String := none
  short_name : Option String := none
  chain_id : Option Nat := none
  network_id : Option Nat := none
  slip44 : Option (Option Nat) := none
  ens : Option (Option Ens) := none
  explorers : Option (List Explorer) := none

/-- Field dispatch for `Chain`: the wire keys are camelCase (with the
explicit `infoURL` override); any key outside the fixed field set is
silently ignored. -/
def chainStep (st : ChainSlots) (kv : String × Json) : Except DeError ChainSlots :=
  if kv.1 = "name" then
    putSlot "name" st.name (deString kv.2) (fun v => { st with name := some v })
  else if kv.1 = "chain" then
    putSlot "chain" st.chain (deString kv.2) (fun v => { st with chain := some v })
  else if kv.1 = "network" then
    putSlot "network" st.network (deString kv.2) (fun v => { st with network := some v })
  else if kv.1 = "icon" then
    putSlot "icon" st.icon (deOpt deString kv.2) (fun v => { st with icon := some v })
  else if kv.1 = "rpc" then
    putSlot "rpc" st.rpc (deSeq deString kv.2) (fun v => { st with rpc := some v })
  else if kv.1 = "faucets" then
    putSlot "faucets" st.faucets (deSeq deString kv.2) (fun v => { st with faucets := some v })
  else if kv.1 = "nativeCurrency" then
    putSlot "nativeCurrency" st.native_currency (deNativeCurrency kv.2)
      (fun v => { st with native_currency := some v })
  else if kv.1 = "infoURL" then
    putSlot "infoURL" st.info_url (deString kv.2) (fun v => { st with info_url := some v })
  else if kv.1 = "shortName" then
    putSlot "shortName" st.short_name (deString kv.2) (fun v => { st with short_name := some v })
  else if kv.1 = "chainId" then
    putSlot "chainId" st.chain_id (deU64 kv.2) (fun v => { st with chain_id := some v })
  else if kv.1 = "networkId" then
    putSlot "networkId" st.network_id (deU64 kv.2) (fun v => { st with network_id := some v })
  else if kv.1 = "slip44" then
    putSlot "slip44" st.slip44 (deOpt deU64 kv.2) (fun v => { st with slip44 := some v })
  else if kv.1 = "ens" then
    putSlot "ens" st.ens (deOpt deEns kv.2) (fun v => { st with ens := some v })
  else if kv.1 = "explorers" then
    putSlot "explorers" st.explorers (deSeq deExplorer kv.2)
      (fun v => { st with explorers := some v })
  else
    .ok st

/-- Assemble a `Chain` once all pairs were visited: `Option` fields default
to `none` when absent, `explorers` (`#[serde(default)]`) to the empty list,
every other field is required. -/
def chainFinish (st : ChainSlots) : Except DeError Chain :=
  match st.name, st.chain, st.network, st.rpc, st.faucets, st.native_currency,
      st.info_url, st.short_name, st.chain_id, st.network_id with
  | some v1, some v2, some v3, some v4, some v5, some v6, some v7, some v8, some v9, some v10 =>
    .ok { name := v1, chain := v2, network := v3, icon := st.icon.getD none,
          rpc := v4, faucets := v5, native_currency := v6, info_url := v7,
          short_name := v8, chain_id := v9, network_id := v10,
          slip44 := st.slip44.getD none, ens := st.ens.getD none,
          explorers := st.explorers.getD [] }
  | none, _, _, _, _, _, _, _, _, _ => .error (.missingField "name")
  | _, none, _, _, _, _, _, _, _, _ => .error (.missingField "chain")
  | _, _, none, _, _, _, _, _, _, _ => .error (.missingField "network")
  | _, _, _, none, _, _, _, _, _, _ => .error (.missingField "rpc")
  | _, _, _, _, none, _, _, _, _, _ => .error (.missingField "faucets")
  | _, _, _, _, _, none, _, _, _, _ => .error (.missingField "nativeCurrency")
  | _, _, _, _, _, _, none, _, _, _ => .error (.missingField "infoURL")
  | _, _, _, _, _, _, _, none, _, _ => .error (.missingField "shortName")
  | _, _, _, _, _, _, _, _, none, _ => .error (.missingField "chainId")
  | _, _, _, _, _, _, _, _, _, none => .error (.missingField "networkId")

/-- serde deserializer for `Chain` (the shape step of
`serde_json::from_reader::<_, Chain>`). -/
def deChain : Json → Except DeError Chain
  | .obj fields =>
    match scanFields chainStep {} fields with
    | .error e => .error e
    | .ok st => chainFinish st
  | _ => .error (.invalidType "struct Chain")

/-- serde serializer for `Option<T>`: `None` becomes `null`. -/
def serOpt {α : Type} (ser : α → Json) : Option α → Json
  | none => .null
  | some v => ser v

/-- serde serializer for `NativeCurrency`. -/
def serNativeCurrency (nc : NativeCurrency) : Json :=
  .obj [("name", .str nc.name), ("symbol", .str nc.symbol), ("decimals", .num nc.decimals)]

/-- serde serializer for `Ens`. -/
def serEns (e : Ens) : Json :=
  .obj [("registry", .str e.registry)]

/-- serde serializer for `Explorer`. -/
def serExplorer (e : Explorer) : Json :=
  .obj [("name", .str e.name), ("url", .str e.url), ("standard", .str e.standard)]

/-- serde serializer for `Chain`: all fields, in declaration order, with the
camelCase wire names. -/
def serChain (c : Chain) : Json :=
  .obj [("name", .str c.name), ("chain", .str c.chain), ("network", .str c.network),
        ("icon", serOpt Json.str c.icon),
        ("rpc", .arr (c.rpc.map Json.str)),
        ("faucets", .arr (c.faucets.map Json.str)),
        ("nativeCurrency", serNativeCurrency c.native_currency),
        ("infoURL", .str c.info_url), ("shortName", .str c.short_name),
        ("chainId", .num (c.chain_id : Int)), ("networkId", .num (c.network_id : Int)),
        ("slip44", serOpt (fun n : Nat => Json.num (n : Int)) c.slip44),
        ("ens", serOpt serEns c.ens),
        ("explorers", .arr (c.explorers.map serExplorer))]

/-- Numeric value of an ASCII digit. -/
def digitVal (c : Char) : Nat := c.toNat - '0'.toNat

/-- Value of a decimal digit string (most significant first). -/
def digitsVal (cs : List Char) : Nat :=
  cs.foldl (fun acc c => acc * 10 + digitVal c) 0

/-- Rust's `str::parse::<u64>()`: an optional leading `+` sign (a `-` is
rejected outright for unsigned types) followed by one or more ASCII
digits; the checked arithmetic fails on overflow, so the parse succeeds
exactly when the digits' value fits in `u64`. -/
def rustParseU64 (s : String) : Option Nat :=
  match s.data with
  | [] => none
  | c :: cs =>
    if c = '-' then none
    else
      let ds := if c = '+' then cs else c :: cs
      if ds.isEmpty then none
      else if ds.all Char.isDigit then
        if digitsVal ds < 2 ^ 64 then some (digitsVal ds) else none
      else none

/-- Rust's `str::strip_prefix` on character lists. -/
def stripPre : List Char → List Char → Option (List Char)
  | [], s => some s
  | _ :: _, [] => none
  | p :: ps, c :: cs => if p = c then stripPre ps cs else none

/-- Rust's `str::strip_suffix` on character lists. -/
def stripSuf (suf s : List Char) : Option (List Char) :=
  (stripPre suf.reverse s.reverse).map List.reverse

/-- The file-name step of the `CHAINS` initializer:
`file_name.strip_prefix("eip155-").and_then(|n| n.strip_suffix(".json"))`. -/
def stripName (fileName : String) : Option String :=
  match stripPre "eip155-".data fileName.data with
  | none => none
  | some r =>
    match stripSuf ".json".data r with
    | none => none
    | some mid => some (String.mk mid)

/-- Chain id encoded in a directory-entry name: the strip step followed by
`parse::<u64>()`. -/
def extractChainId (fileName : String) : Option Nat :=
  (stripName fileName).bind rustParseU64

/-- Decimal digits of `n`, fuel-based so that it evaluates by kernel
reduction (the fuel `n + 1` always suffices). -/
def natToDigitsAux : Nat → Nat → List Char → List Char
  | 0, _, acc => acc
  | fuel + 1, n, acc =>
    if n < 10 then Nat.digitChar (n % 10) :: acc
    else natToDigitsAux fuel (n / 10) (Nat.digitChar (n % 10) :: acc)

/-- Decimal rendering of a `u64`, as Rust's `Display` produces it. -/
def natToDigits (n : Nat) : List Char :=
  natToDigitsAux (n + 1) n []

/-- The path-from-id step of `Chain::from_file`:
`format!("eip155-{}.json", chain_id)` (the fixed data-directory prefix,
common to the build and to `from_file`, is elided). -/
def canonicalFileName (chain_id : Nat) : String :=
  "eip155-" ++ String.mk (natToDigits chain_id) ++ ".json"

/-- Type of one directory entry, as `DirEntry::file_type()` reports it —
without following symlinks, so a symlink to a regular file is a `symlink`,
not a `file`. -/
inductive EntryType where
  | file
  | symlinkFile
  | dir
  | brokenSymlink

/-- What `serde_json::from_reader` encounters once the handle is opened: a
read fault mid-stream (serde_json's Io error category), bytes that are not
valid JSON (carrying the parse message), or a parsed JSON document. -/
inductive ReadOutcome where
  | ioFault (cause : String)
  | invalidJson (msg : String)
  | json (j : Json)

/-- One entry of the data directory listing.  `read` is what reading the
opened handle yields; it is meaningful for `file` and `symlinkFile`
entries (a `dir` entry opens but its first read faults with EISDIR, and a
`brokenSymlink` does not open at all). -/
structure DirEntry where
  name : String
  etype : EntryType
  read : ReadOutcome

/-- The build loop's `file_type().is_file()` test: true only for regular
files, since `DirEntry::file_type` does not follow symlinks. -/
def DirEntry.isFile (e : DirEntry) : Bool :=
  match e.etype with
  | .file => true
  | _ => false

/-- `File::open` on one entry: follows symlinks to files, succeeds on a
directory (whose read then faults), fails on a broken symlink. -/
def openEntry (e : DirEntry) : Option ReadOutcome :=
  match e.etype with
  | .file => some e.read
  | .symlinkFile => some e.read
  | .dir => some (.ioFault "Is a directory (os error 21)")
  | .brokenSymlink => none

/-- Opening a path inside the data directory: find the entry of that name
and open it; the open fails when no entry has the name, or the entry is a
broken link. -/
def openInDir (d : List DirEntry) (path : String) : Except String ReadOutcome :=
  match d.find? (fun e => e.name == path) with
  | none => .error "No such file or directory (os error 2)"
  | some e =>
    match openEntry e with
    | none => .error "No such file or directory (os error 2)"
    | some r => .ok r

/-- The two error kinds of `error::Kind`. -/
inductive Kind where
  | json
  | file
  deriving DecidableEq

/-- The crate's `error::Error`: a kind plus the boxed underlying cause. -/
structure Error where
  kind : Kind
  source : Option String
  deriving DecidableEq

/-- Rendering of a `DeError` as the serde_json cause message. -/
def deErrMsg : DeError → String
  | .invalidType e => "invalid type, expected " ++ e
  | .missingField f => "missing field " ++ f
  | .duplicateField f => "duplicate field " ++ f

/-- The crate's `error::open_file`: wrap an I/O cause as `Kind::File`. -/
def error.open_file (ioErr : String) : Error :=
  { kind := .file, source := some ioErr }

/-- The crate's `error::deserialize`: wrap a serde_json cause as
`Kind::Json`. -/
def error.deserialize (cause : String) : Error :=
  { kind := .json, source := some cause }

/-- The crate's `Chain::from_file`: derive the canonical path from the id,
open it (`Kind::File` on failure), then run serde_json over the reader:
a read I/O fault, a parse failure and a shape failure all become
serde_json errors and are wrapped as `Kind::Json`. -/
def Chain.from_file (d : List DirEntry) (chain_id : Nat) : Except Error Chain :=
  match openInDir d (canonicalFileName chain_id) with
  | .error io => .error (error.open_file io)
  | .ok (.ioFault cause) => .error (error.deserialize cause)
  | .ok (.invalidJson msg) => .error (error.deserialize msg)
  | .ok (.json j) =>
    match deChain j with
    | .error e => .error (error.deserialize (deErrMsg e))
    | .ok c => .ok c

/-- The panics of the `CHAINS` initializer. -/
inductive BuildPanic where
  | badFileName (fileName : String)
  | badChainId (fileName : String)
  | readChainFailed (fileName : String) (err : Error)
  | duplicateChainId (chain_id : Nat)
  deriving DecidableEq

/-- One iteration of the `CHAINS` initializer loop: skip non-files, panic on
a name that does not strip or parse, panic when `Chain::from_file` fails,
panic on a duplicate chain id, otherwise insert. -/
def buildStep (d : List DirEntry) (chains : List (Nat × Chain)) (e : DirEntry) :
    Except BuildPanic (List (Nat × Chain)) :=
  if e.isFile = false then .ok chains
  else
    match stripName e.name with
    | none => .error (.badFileName e.name)
    | some mid =>
      match rustParseU64 mid with
      | none => .error (.badChainId e.name)
      | some chain_id =>
        match Chain.from_file d chain_id with
        | .error err => .error (.readChainFailed e.name err)
        | .ok chain =>
          if (chains.lookup chain_id).isSome then .error (.duplicateChainId chain_id)
          else .ok ((chain_id, chain) :: chains)

/-- The `CHAINS` initializer loop over the remaining directory entries. -/
def buildLoop (d : List DirEntry) :
    List (Nat × Chain) → List DirEntry → Except BuildPanic (List (Nat × Chain))
  | chains, [] => .ok chains
  | chains, e :: rest =>
    match buildStep d chains e with
    | .error p => .error p
    | .ok chains' => buildLoop d chains' rest

/-- The `CHAINS` lazy static, as a function of the data-directory listing:
either the finished catalog or the panic that aborted the build. -/
def CHAINS (d : List DirEntry) : Except BuildPanic (List (Nat × Chain)) :=
  buildLoop d [] d

/-- The crate's `Chain::get`: look the id up in the built catalog and clone
the record (cloning is the identity in the model). -/
def Chain.get (chains : List (Nat × Chain)) (chain_id : Nat) : Option Chain :=
  chains.lookup chain_id

/-! ### Inversion and range lemmas for the field deserializers -/

theorem putSlot_ok_iff {σ α : Type} (fieldName : String) (cur : Option α)
    (dec : Except DeError α) (set : α → σ) (st' : σ) :
    putSlot fieldName cur dec set = .ok st' ↔
      cur = none ∧ ∃ v, dec = .ok v ∧ st' = set v := by
  cases cur with
  | some v => simp [putSlot]
  | none =>
    cases dec with
    | error e => simp [putSlot]
    | ok v =>
      simp only [putSlot, Except.ok.injEq, true_and]
      constructor
      · intro h; exact ⟨v, rfl, h.symm⟩
      · rintro ⟨w, hw, hst⟩
        cases hw
        exact hst.symm

theorem deU64_lt (j : Json) (n : Nat) (h : deU64 j = .ok n) : n < 2 ^ 64 := by
  cases j with
  | num m =>
    simp only [deU64] at h
    split at h
    · rename_i hc
      injection h with h'
      omega
    · exact absurd h (by simp)
  | null => simp [deU64] at h
  | bool b => simp [deU64] at h
  | str s => simp [deU64] at h
  | arr es => simp [deU64] at h
  | obj fs => simp [deU64] at h

theorem deI64_range (j : Json) (n : Int) (h : deI64 j = .ok n) :
    -2 ^ 63 ≤ n ∧ n < 2 ^ 63 := by
  cases j with
  | num m =>
    simp only [deI64] at h
    split at h
    · rename_i hc
      injection h with h'
      omega
    · exact absurd h (by simp)
  | null => simp [deI64] at h
  | bool b => simp [deI64] at h
  | str s => simp [deI64] at h
  | arr es => simp [deI64] at h
  | obj fs => simp [deI64] at h

theorem map_some_ok {α : Type} (r : Except DeError α) (v : α)
    (h : r.map some = .ok (some v)) : r = .ok v := by
  cases r with
  | error e => simp [Except.map] at h
  | ok x =>
    simp only [Except.map, Except.ok.injEq, Option.some.injEq] at h
    rw [h]

theorem deOpt_ok_some {α : Type} (de : Json → Except DeError α) (j : Json) (v : α)
    (h : deOpt de j = .ok (some v)) : de j = .ok v := by
  cases j with
  | null => simp [deOpt] at h
  | bool b => exact map_some_ok _ _ h
  | num n => exact map_some_ok _ _ h
  | str s => exact map_some_ok _ _ h
  | arr es => exact map_some_ok _ _ h
  | obj fs => exact map_some_ok _ _ h

/-! ### Generic lemmas about the serde visitor loop -/

theorem scanFields_invariant {σ : Type} (P : σ → Prop)
    (step : σ → String × Json → Except DeError σ) (l : List (String × Json))
    (hstep : ∀ st kv st', kv ∈ l → step st kv = .ok st' → P st → P st') :
    ∀ st st', scanFields step st l = .ok st' → P st → P st' := by
  induction l with
  | nil =>
    intro st st' h hp
    simp only [scanFields] at h
    cases h
    exact hp
  | cons kv rest ih =>
    intro st st' h hp
    simp only [scanFields] at h
    cases hstep0 : step st kv with
    | error e => rw [hstep0] at h; exact absurd h (by simp)
    | ok st1 =>
      rw [hstep0] at h
      exact ih (fun a b c hm => hstep a b c (List.mem_cons_of_mem _ hm))
        st1 st' h (hstep st kv st1 (List.mem_cons_self _ _) hstep0 hp)

theorem scanFields_skip {σ : Type} (step : σ → String × Json → Except DeError σ)
    (pre post : List (String × Json)) (kv : String × Json)
    (hskip : ∀ st, step st kv = .ok st) :
    ∀ st, scanFields step st (pre ++ kv :: post) = scanFields step st (pre ++ post) := by
  induction pre with
  | nil =>
    intro st
    simp only [List.nil_append, scanFields, hskip st]
  | cons kv0 rest ih =>
    intro st
    simp only [List.cons_append, scanFields]
    cases step st kv0 with
    | error e => rfl
    | ok st1 => exact ih st1

/-! ### Per-field round-trip lemmas (decode of the serializer's output) -/

theorem deString_str (s : String) : deString (.str s) = .ok s := rfl

theorem deU64_num (n : Nat) (h : n < 2 ^ 64) : deU64 (.num (n : Int)) = .ok n := by
  simp only [deU64]
  rw [if_pos (by omega)]
  simp

theorem deI64_num (n : Int) (h1 : -2 ^ 63 ≤ n) (h2 : n < 2 ^ 63) :
    deI64 (.num n) = .ok n := by
  simp only [deI64]
  rw [if_pos ⟨h1, h2⟩]

theorem deList_map_str (l : List String) :
    deList deString (l.map Json.str) = .ok l := by
  induction l with
  | nil => rfl
  | cons s rest ih => simp [deList, deString, ih]

theorem deSeq_map_str (l : List String) :
    deSeq deString (.arr (l.map Json.str)) = .ok l := by
  simp [deSeq, deList_map_str]

theorem deOpt_serOpt_str (o : Option String) :
    deOpt deString (serOpt Json.str o) = .ok o := by
  cases o <;> rfl

theorem deOpt_serOpt_u64 (o : Option Nat) (h : ∀ n, o = some n → n < 2 ^ 64) :
    deOpt deU64 (serOpt (fun n : Nat => Json.num (n : Int)) o) = .ok o := by
  cases o with
  | none => rfl
  | some n =>
    show (deU64 (.num (n : Int))).map some = .ok (some n)
    rw [deU64_num n (h n rfl)]
    rfl

theorem deEns_serEns (e : Ens) : deEns (serEns e) = .ok e := rfl

theorem deOpt_serOpt_ens (o : Option Ens) :
    deOpt deEns (serOpt serEns o) = .ok o := by
  cases o <;> rfl

theorem deExplorer_serExplorer (e : Explorer) : deExplorer (serExplorer e) = .ok e := rfl

theorem deList_map_explorer (l : List Explorer) :
    deList deExplorer (l.map serExplorer) = .ok l := by
  induction l with
  | nil => rfl
  | cons e rest ih => simp [deList, deExplorer_serExplorer, ih]

theorem deSeq_map_explorer (l : List Explorer) :
    deSeq deExplorer (.arr (l.map serExplorer)) = .ok l := by
  simp [deSeq, deList_map_explorer]

theorem deNativeCurrency_ser (nc : NativeCurrency)
    (h1 : -2 ^ 63 ≤ nc.decimals) (h2 : nc.decimals < 2 ^ 63) :
    deNativeCurrency (serNativeCurrency nc) = .ok nc := by
  simp [deNativeCurrency, serNativeCurrency, scanFields, ncStep, putSlot, deString,
    deI64_num nc.decimals h1 h2, ncFinish]

/-! ### Decoding success forces the numeric range invariants -/

theorem ncStep_decimals_range (st : NCSlots) (kv : String × Json) (st' : NCSlots)
    (h : ncStep st kv = .ok st')
    (hq : ∀ d, st.decimals = some d → -2 ^ 63 ≤ d ∧ d < 2 ^ 63) :
    ∀ d, st'.decimals = some d → -2 ^ 63 ≤ d ∧ d < 2 ^ 63 := by
  unfold ncStep at h
  split at h
  · rw [putSlot_ok_iff] at h
    obtain ⟨-, v, hv, rfl⟩ := h
    exact hq
  · split at h
    · rw [putSlot_ok_iff] at h
      obtain ⟨-, v, hv, rfl⟩ := h
      exact hq
    · split at h
      · rw [putSlot_ok_iff] at h
        obtain ⟨-, v, hv, rfl⟩ := h
        intro d hd
        have hvd : v = d := by simpa using hd
        exact hvd ▸ deI64_range _ _ hv
      · injection h with h'
        exact h' ▸ hq

theorem deNativeCurrency_decimals (j : Json) (nc : NativeCurrency)
    (h : deNativeCurrency j = .ok nc) :
    -2 ^ 63 ≤ nc.decimals ∧ nc.decimals < 2 ^ 63 := by
  cases j with
  | obj fields =>
    simp only [deNativeCurrency] at h
    cases hscan : scanFields ncStep {} fields with
    | error e => rw [hscan] at h; exact absurd h (by simp)
    | ok st =>
      have hfin : ncFinish st = .ok nc := by rw [hscan] at h; exact h
      have hq : ∀ d, st.decimals = some d → -2 ^ 63 ≤ d ∧ d < 2 ^ 63 :=
        scanFields_invariant (fun s => ∀ d, s.decimals = some d → -2 ^ 63 ≤ d ∧ d < 2 ^ 63)
          ncStep fields (fun a b c _ => ncStep_decimals_range a b c) {} st hscan
          (by intro d hd; simp at hd)
      obtain ⟨sn, ss, sd⟩ := st
      cases sn with
      | none => simp [ncFinish] at hfin
      | some n =>
        cases ss with
        | none => simp [ncFinish] at hfin
        | some s =>
          cases sd with
          | none => simp [ncFinish] at hfin
          | some d =>
            have hr := hq d rfl
            simp only [ncFinish, Except.ok.injEq] at hfin
            rw [← hfin]
            exact hr
  | null => simp [deNativeCurrency] at h
  | bool b => simp [deNativeCurrency] at h
  | num n => simp [deNativeCurrency] at h
  | str s => simp [deNativeCurrency] at h
  | arr es => simp [deNativeCurrency] at h

/-- Invariant maintained by the `Chain` visitor loop: every numeric slot that
has been filled holds an in-range value. -/
def SlotsWF (st : ChainSlots) : Prop :=
  (∀ n, st.chain_id = some n → n < 2 ^ 64) ∧
  (∀ n, st.network_id = some n → n < 2 ^ 64) ∧
  (∀ o, st.slip44 = some o → ∀ n, o = some n → n < 2 ^ 64) ∧
  (∀ nc, st.native_currency = some nc →
    -2 ^ 63 ≤ nc.decimals ∧ nc.decimals < 2 ^ 63)

theorem chainStep_ok_main (st : ChainSlots) (kv : String × Json) (st' : ChainSlots)
    (h : chainStep st kv = .ok st') (hw : SlotsWF st) :
    SlotsWF st' ∧ (kv.1 ≠ "explorers" → st'.explorers = st.explorers) := by
  unfold chainStep at h
  by_cases k1 : kv.1 = "name"
  · rw [if_pos k1] at h
    rw [putSlot_ok_iff] at h
    obtain ⟨-, v, hv, rfl⟩ := h
    exact ⟨hw, fun _ => rfl⟩
  · rw [if_neg k1] at h
    by_cases k2 : kv.1 = "chain"
    · rw [if_pos k2] at h
      rw [putSlot_ok_iff] at h
      obtain ⟨-, v, hv, rfl⟩ := h
      exact ⟨hw, fun _ => rfl⟩
    · rw [if_neg k2] at h
      by_cases k3 : kv.1 = "network"
      · rw [if_pos k3] at h
        rw [putSlot_ok_iff] at h
        obtain ⟨-, v, hv, rfl⟩ := h
        exact ⟨hw, fun _ => rfl⟩
      · rw [if_neg k3] at h
        by_cases k4 : kv.1 = "icon"
        · rw [if_pos k4] at h
          rw [putSlot_ok_iff] at h
          obtain ⟨-, v, hv, rfl⟩ := h
          exact ⟨hw, fun _ => rfl⟩
        · rw [if_neg k4] at h
          by_cases k5 : kv.1 = "rpc"
          · rw [if_pos k5] at h
            rw [putSlot_ok_iff] at h
            obtain ⟨-, v, hv, rfl⟩ := h
            exact ⟨hw, fun _ => rfl⟩
          · rw [if_neg k5] at h
            by_cases k6 : kv.1 = "faucets"
            · rw [if_pos k6] at h
              rw [putSlot_ok_iff] at h
              obtain ⟨-, v, hv, rfl⟩ := h
              exact ⟨hw, fun _ => rfl⟩
            · rw [if_neg k6] at h
              by_cases k7 : kv.1 = "nativeCurrency"
              · rw [if_pos k7] at h
                rw [putSlot_ok_iff] at h
                obtain ⟨-, v, hv, rfl⟩ := h
                refine ⟨⟨hw.1, hw.2.1, hw.2.2.1, ?_⟩, fun _ => rfl⟩
                intro nc hnc
                have hv' : v = nc := by simpa using hnc
                exact hv' ▸ deNativeCurrency_decimals _ _ hv
              · rw [if_neg k7] at h
                by_cases k8 : kv.1 = "infoURL"
                · rw [if_pos k8] at h
                  rw [putSlot_ok_iff] at h
                  obtain ⟨-, v, hv, rfl⟩ := h
                  exact ⟨hw, fun _ => rfl⟩
                · rw [if_neg k8] at h
                  by_cases k9 : kv.1 = "shortName"
                  · rw [if_pos k9] at h
                    rw [putSlot_ok_iff] at h
                    obtain ⟨-, v, hv, rfl⟩ := h
                    exact ⟨hw, fun _ => rfl⟩
                  · rw [if_neg k9] at h
                    by_cases k10 : kv.1 = "chainId"
                    · rw [if_pos k10] at h
                      rw [putSlot_ok_iff] at h
                      obtain ⟨-, v, hv, rfl⟩ := h
                      refine ⟨⟨?_, hw.2.1, hw.2.2.1, hw.2.2.2⟩, fun _ => rfl⟩
                      intro n hn
                      have hv' : v = n := by simpa using hn
                      exact hv' ▸ deU64_lt _ _ hv
                    · rw [if_neg k10] at h
                      by_cases k11 : kv.1 = "networkId"
                      · rw [if_pos k11] at h
                        rw [putSlot_ok_iff] at h
                        obtain ⟨-, v, hv, rfl⟩ := h
                        refine ⟨⟨hw.1, ?_, hw.2.2.1, hw.2.2.2⟩, fun _ => rfl⟩
                        intro n hn
                        have hv' : v = n := by simpa using hn
                        exact hv' ▸ deU64_lt _ _ hv
                      · rw [if_neg k11] at h
                        by_cases k12 : kv.1 = "slip44"
                        · rw [if_pos k12] at h
                          rw [putSlot_ok_iff] at h
                          obtain ⟨-, v, hv, rfl⟩ := h
                          refine ⟨⟨hw.1, hw.2.1, ?_, hw.2.2.2⟩, fun _ => rfl⟩
                          intro o ho
                          have hv' : v = o := by simpa using ho
                          subst hv'
                          intro n hn
                          exact deU64_lt _ _ (deOpt_ok_some _ _ _ (hn ▸ hv))
                        · rw [if_neg k12] at h
                          by_cases k13 : kv.1 = "ens"
                          · rw [if_pos k13] at h
                            rw [putSlot_ok_iff] at h
                            obtain ⟨-, v, hv, rfl⟩ := h
                            exact ⟨hw, fun _ => rfl⟩
                          · rw [if_neg k13] at h
                            by_cases k14 : kv.1 = "explorers"
                            · rw [if_pos k14] at h
                              rw [putSlot_ok_iff] at h
                              obtain ⟨-, v, hv, rfl⟩ := h
                              exact ⟨hw, fun hne => absurd k14 hne⟩
                            · rw [if_neg k14] at h
                              injection h with h'
                              subst h'
                              exact ⟨hw, fun _ => rfl⟩


theorem chainFinish_ok_fields (st : ChainSlots) (c : Chain) (h : chainFinish st = .ok c) :
    st.name = some c.name ∧ st.chain = some c.chain ∧ st.network = some c.network ∧
    st.icon.getD none = c.icon ∧ st.rpc = some c.rpc ∧ st.faucets = some c.faucets ∧
    st.native_currency = some c.native_currency ∧ st.info_url = some c.info_url ∧
    st.short_name = some c.short_name ∧ st.chain_id = some c.chain_id ∧
    st.network_id = some c.network_id ∧ st.slip44.getD none = c.slip44 ∧
    st.ens.getD none = c.ens ∧ st.explorers.getD [] = c.explorers := by
  obtain ⟨f1, f2, f3, f4, f5, f6, f7, f8, f9, f10, f11, f12, f13, f14⟩ := st
  cases f1 with
  | none => simp [chainFinish] at h
  | some v1 =>
    cases f2 with
    | none => simp [chainFinish] at h
    | some v2 =>
      cases f3 with
      | none => simp [chainFinish] at h
      | some v3 =>
        cases f5 with
        | none => simp [chainFinish] at h
        | some v5 =>
          cases f6 with
          | none => simp [chainFinish] at h
          | some v6 =>
            cases f7 with
            | none => simp [chainFinish] at h
            | some v7 =>
              cases f8 with
              | none => simp [chainFinish] at h
              | some v8 =>
                cases f9 with
                | none => simp [chainFinish] at h
                | some v9 =>
                  cases f10 with
                  | none => simp [chainFinish] at h
                  | some v10 =>
                    cases f11 with
                    | none => simp [chainFinish] at h
                    | some v11 =>
                      injection h with h'
                      subst h'
                      exact ⟨rfl, rfl, rfl, rfl, rfl, rfl, rfl, rfl, rfl, rfl,
                        rfl, rfl, rfl, rfl⟩

theorem deChain_wf (j : Json) (c : Chain) (h : deChain j = .ok c) :
    c.chain_id < 2 ^ 64 ∧ c.network_id < 2 ^ 64 ∧
    (∀ n, c.slip44 = some n → n < 2 ^ 64) ∧
    (-2 ^ 63 ≤ c.native_currency.decimals ∧ c.native_currency.decimals < 2 ^ 63) := by
  cases j with
  | obj fields =>
    simp only [deChain] at h
    cases hscan : scanFields chainStep {} fields with
    | error e => rw [hscan] at h; exact absurd h (by simp)
    | ok st =>
      have hfin : chainFinish st = .ok c := by rw [hscan] at h; exact h
      have hw : SlotsWF st :=
        scanFields_invariant SlotsWF chainStep fields
          (fun a b c' _ hok hwf => (chainStep_ok_main a b c' hok hwf).1) {} st hscan
          (by refine ⟨?_, ?_, ?_, ?_⟩ <;> intro x hx <;> simp at hx)
      obtain ⟨h1, h2, h3, h4, h5, h6, h7, h8, h9, h10, h11, h12, h13, h14⟩ :=
        chainFinish_ok_fields st c hfin
      refine ⟨hw.1 _ h10, hw.2.1 _ h11, ?_, hw.2.2.2 _ h7⟩
      intro n hn
      cases hs : st.slip44 with
      | none =>
        rw [hs] at h12
        simp only [Option.getD_none] at h12
        rw [← h12] at hn
        exact absurd hn (by simp)
      | some o =>
        rw [hs] at h12
        simp only [Option.getD_some] at h12
        exact hw.2.2.1 o hs n (by rw [h12]; exact hn)
  | null => simp [deChain] at h
  | bool b => simp [deChain] at h
  | num n => simp [deChain] at h
  | str s => simp [deChain] at h
  | arr es => simp [deChain] at h

theorem scanFields_cons {σ : Type} (step : σ → String × Json → Except DeError σ)
(st : σ) (kv : String × Json) (rest : List (String × Json)) (st1 : σ)
    (h : step st kv = .ok st1) :
    scanFields step st (kv :: rest) = scanFields step st1 rest := by
  simp only [scanFields, h]

theorem chainStep_key_name (st : ChainSlots) (j : Json) (v : String)
    (hslot : st.name = none) (hde : deString j = .ok v) :
    chainStep st ("name", j) = .ok { st with name := some v } := by
  have e : chainStep st ("name", j)
      = putSlot "name" st.name (deString j) (fun w => { st with name := some w }) := rfl
  rw [e, hslot, hde]
  rfl

theorem chainStep_key_chain (st : ChainSlots) (j : Json) (v : String)
    (hslot : st.chain = none) (hde : deString j = .ok v) :
    chainStep st ("chain", j) = .ok { st with chain := some v } := by
  have e : chainStep st ("chain", j)
      = putSlot "chain" st.chain (deString j) (fun w => { st with chain := some w }) := rfl
  rw [e, hslot, hde]
  rfl

theorem chainStep_key_network (st : ChainSlots) (j : Json) (v : String)
    (hslot : st.network = none) (hde : deString j = .ok v) :
    chainStep st ("network", j) = .ok { st with network := some v } := by
  have e : chainStep st ("network", j)
      = putSlot "network" st.network (deString j) (fun w => { st with network := some w }) := rfl
  rw [e, hslot, hde]
  rfl

theorem chainStep_key_icon (st : ChainSlots) (j : Json) (v : Option String)
    (hslot : st.icon = none) (hde : deOpt deString j = .ok v) :
    chainStep st ("icon", j) = .ok { st with icon := some v } := by
  have e : chainStep st ("icon", j)
      = putSlot "icon" st.icon (deOpt deString j) (fun w => { st with icon := some w }) := rfl
  rw [e, hslot, hde]
  rfl

theorem chainStep_key_rpc (st : ChainSlots) (j : Json) (v : List String)
    (hslot : st.rpc = none) (hde : deSeq deString j = .ok v) :
    chainStep st ("rpc", j) = .ok { st with rpc := some v } := by
  have e : chainStep st ("rpc", j)
      = putSlot "rpc" st.rpc (deSeq deString j) (fun w => { st with rpc := some w }) := rfl
  rw [e, hslot, hde]
  rfl

theorem chainStep_key_faucets (st : ChainSlots) (j : Json) (v : List String)
    (hslot : st.faucets = none) (hde : deSeq deString j = .ok v) :
    chainStep st ("faucets", j) = .ok { st with faucets := some v } := by
  have e : chainStep st ("faucets", j)
      = putSlot "faucets" st.faucets (deSeq deString j) (fun w => { st with faucets := some w }) := rfl
  rw [e, hslot, hde]
  rfl

theorem chainStep_key_nativeCurrency (st : ChainSlots) (j : Json) (v : NativeCurrency)
    (hslot : st.native_currency = none) (hde : deNativeCurrency j = .ok v) :
    chainStep st ("nativeCurrency", j) = .ok { st with native_currency := some v } := by
  have e : chainStep st ("nativeCurrency", j)
      = putSlot "nativeCurrency" st.native_currency (deNativeCurrency j) (fun w => { st with native_currency := some w }) := rfl
  rw [e, hslot, hde]
  rfl

theorem chainStep_key_infoURL (st : ChainSlots) (j : Json) (v : String)
    (hslot : st.info_url = none) (hde : deString j = .ok v) :
    chainStep st ("infoURL", j) = .ok { st with info_url := some v } := by
  have e : chainStep st ("infoURL", j)
      = putSlot "infoURL" st.info_url (deString j) (fun w => { st with info_url := some w }) := rfl
  rw [e, hslot, hde]
  rfl

theorem chainStep_key_shortName (st : ChainSlots) (j : Json) (v : String)
    (hslot : st.short_name = none) (hde : deString j = .ok v) :
    chainStep st ("shortName", j) = .ok { st with short_name := some v } := by
  have e : chainStep st ("shortName", j)
      = putSlot "shortName" st.short_name (deString j) (fun w => { st with short_name := some w }) := rfl
  rw [e, hslot, hde]
  rfl

theorem chainStep_key_chainId (st : ChainSlots) (j : Json) (v : Nat)
    (hslot : st.chain_id = none) (hde : deU64 j = .ok v) :
    chainStep st ("chainId", j) = .ok { st with chain_id := some v } := by
  have e : chainStep st ("chainId", j)
      = putSlot "chainId" st.chain_id (deU64 j) (fun w => { st with chain_id := some w }) := rfl
  rw [e, hslot, hde]
  rfl

theorem chainStep_key_networkId (st : ChainSlots) (j : Json) (v : Nat)
    (hslot : st.network_id = none) (hde : deU64 j = .ok v) :
    chainStep st ("networkId", j) = .ok { st with network_id := some v } := by
  have e : chainStep st ("networkId", j)
      = putSlot "networkId" st.network_id (deU64 j) (fun w => { st with network_id := some w }) := rfl
  rw [e, hslot, hde]
  rfl

theorem chainStep_key_slip44 (st : ChainSlots) (j : Json) (v : Option Nat)
    (hslot : st.slip44 = none) (hde : deOpt deU64 j = .ok v) :
    chainStep st ("slip44", j) = .ok { st with slip44 := some v } := by
  have e : chainStep st ("slip44", j)
      = putSlot "slip44" st.slip44 (deOpt deU64 j) (fun w => { st with slip44 := some w }) := rfl
  rw [e, hslot, hde]
  rfl

theorem chainStep_key_ens (st : ChainSlots) (j : Json) (v : Option Ens)
    (hslot : st.ens = none) (hde : deOpt deEns j = .ok v) :
    chainStep st ("ens", j) = .ok { st with ens := some v } := by
  have e : chainStep st ("ens", j)
      = putSlot "ens" st.ens (deOpt deEns j) (fun w => { st with ens := some w }) := rfl
  rw [e, hslot, hde]
  rfl

theorem chainStep_key_explorers (st : ChainSlots) (j : Json) (v : List Explorer)
    (hslot : st.explorers = none) (hde : deSeq deExplorer j = .ok v) :
    chainStep st ("explorers", j) = .ok { st with explorers := some v } := by
  have e : chainStep st ("explorers", j)
      = putSlot "explorers" st.explorers (deSeq deExplorer j) (fun w => { st with explorers := some w }) := rfl
  rw [e, hslot, hde]
  rfl


theorem deChain_serChain (c : Chain)
    (h1 : c.chain_id < 2 ^ 64) (h2 : c.network_id < 2 ^ 64)
    (h3 : ∀ n, c.slip44 = some n → n < 2 ^ 64)
    (h4 : -2 ^ 63 ≤ c.native_currency.decimals) (h5 : c.native_currency.decimals < 2 ^ 63) :
    deChain (serChain c) = .ok c := by
  have e1 : chainStep (⟨none, none, none, none, none, none, none, none, none, none, none, none, none, none⟩ : ChainSlots)
      ("name", Json.str c.name)
      = .ok (⟨some c.name, none, none, none, none, none, none, none, none, none, none, none, none, none⟩ : ChainSlots) :=
    chainStep_key_name _ _ _ rfl rfl
  have e2 : chainStep (⟨some c.name, none, none, none, none, none, none, none, none, none, none, none, none, none⟩ : ChainSlots)
      ("chain", Json.str c.chain)
      = .ok (⟨some c.name, some c.chain, none, none, none, none, none, none, none, none, none, none, none, none⟩ : ChainSlots) :=
    chainStep_key_chain _ _ _ rfl rfl
  have e3 : chainStep (⟨some c.name, some c.chain, none, none, none, none, none, none, none, none, none, none, none, none⟩ : ChainSlots)
      ("network", Json.str c.network)
      = .ok (⟨some c.name, some c.chain, some c.network, none, none, none, none, none, none, none, none, none, none, none⟩ : ChainSlots) :=
    chainStep_key_network _ _ _ rfl rfl
  have e4 : chainStep (⟨some c.name, some c.chain, some c.network, none, none, none, none, none, none, none, none, none, none, none⟩ : ChainSlots)
      ("icon", serOpt Json.str c.icon)
      = .ok (⟨some c.name, some c.chain, some c.network, some c.icon, none, none, none, none, none, none, none, none, none, none⟩ : ChainSlots) :=
    chainStep_key_icon _ _ _ rfl (deOpt_serOpt_str c.icon)
  have e5 : chainStep (⟨some c.name, some c.chain, some c.network, some c.icon, none, none, none, none, none, none, none, none, none, none⟩ : ChainSlots)
      ("rpc", Json.arr (c.rpc.map Json.str))
      = .ok (⟨some c.name, some c.chain, some c.network, some c.icon, some c.rpc, none, none, none, none, none, none, none, none, none⟩ : ChainSlots) :=
    chainStep_key_rpc _ _ _ rfl (deSeq_map_str c.rpc)
  have e6 : chainStep (⟨some c.name, some c.chain, some c.network, some c.icon, some c.rpc, none, none, none, none, none, none, none, none, none⟩ : ChainSlots)
      ("faucets", Json.arr (c.faucets.map Json.str))
      = .ok (⟨some c.name, some c.chain, some c.network, some c.icon, some c.rpc, some c.faucets, none, none, none, none, none, none, none, none⟩ : ChainSlots) :=
    chainStep_key_faucets _ _ _ rfl (deSeq_map_str c.faucets)
  have e7 : chainStep (⟨some c.name, some c.chain, some c.network, some c.icon, some c.rpc, some c.faucets, none, none, none, none, none, none, none, none⟩ : ChainSlots)
      ("nativeCurrency", serNativeCurrency c.native_currency)
      = .ok (⟨some c.name, some c.chain, some c.network, some c.icon, some c.rpc, some c.faucets, some c.native_currency, none, none, none, none, none, none, none⟩ : ChainSlots) :=
    chainStep_key_nativeCurrency _ _ _ rfl (deNativeCurrency_ser c.native_currency h4 h5)
  have e8 : chainStep (⟨some c.name, some c.chain, some c.network, some c.icon, some c.rpc, some c.faucets, some c.native_currency, none, none, none, none, none, none, none⟩ : ChainSlots)
      ("infoURL", Json.str c.info_url)
      = .ok (⟨some c.name, some c.chain, some c.network, some c.icon, some c.rpc, some c.faucets, some c.native_currency, some c.info_url, none, none, none, none, none, none⟩ : ChainSlots) :=
    chainStep_key_infoURL _ _ _ rfl rfl
  have e9 : chainStep (⟨some c.name, some c.chain, some c.network, some c.icon, some c.rpc, some c.faucets, some c.native_currency, some c.info_url, none, none, none, none, none, none⟩ : ChainSlots)
      ("shortName", Json.str c.short_name)
      = .ok (⟨some c.name, some c.chain, some c.network, some c.icon, some c.rpc, some c.faucets, some c.native_currency, some c.info_url, some c.short_name, none, none, none, none, none⟩ : ChainSlots) :=
    chainStep_key_shortName _ _ _ rfl rfl
  have e10 : chainStep (⟨some c.name, some c.chain, some c.network, some c.icon, some c.rpc, some c.faucets, some c.native_currency, some c.info_url, some c.short_name, none, none, none, none, none⟩ : ChainSlots)
      ("chainId", Json.num (c.chain_id : Int))
      = .ok (⟨some c.name, some c.chain, some c.network, some c.icon, some c.rpc, some c.faucets, some c.native_currency, some c.info_url, some c.short_name, some c.chain_id, none, none, none, none⟩ : ChainSlots) :=
    chainStep_key_chainId _ _ _ rfl (deU64_num c.chain_id h1)
  have e11 : chainStep (⟨some c.name, some c.chain, some c.network, some c.icon, some c.rpc, some c.faucets, some c.native_currency, some c.info_url, some c.short_name, some c.chain_id, none, none, none, none⟩ : ChainSlots)
      ("networkId", Json.num (c.network_id : Int))
      = .ok (⟨some c.name, some c.chain, some c.network, some c.icon, some c.rpc, some c.faucets, some c.native_currency, some c.info_url, some c.short_name, some c.chain_id, some c.network_id, none, none, none⟩ : ChainSlots) :=
    chainStep_key_networkId _ _ _ rfl (deU64_num c.network_id h2)
  have e12 : chainStep (⟨some c.name, some c.chain, some c.network, some c.icon, some c.rpc, some c.faucets, some c.native_currency, some c.info_url, some c.short_name, some c.chain_id, some c.network_id, none, none, none⟩ : ChainSlots)
      ("slip44", serOpt (fun n : Nat => Json.num (n : Int)) c.slip44)
      = .ok (⟨some c.name, some c.chain, some c.network, some c.icon, some c.rpc, some c.faucets, some c.native_currency, some c.info_url, some c.short_name, some c.chain_id, some c.network_id, some c.slip44, none, none⟩ : ChainSlots) :=
    chainStep_key_slip44 _ _ _ rfl (deOpt_serOpt_u64 c.slip44 h3)
  have e13 : chainStep (⟨some c.name, some c.chain, some c.network, some c.icon, some c.rpc, some c.faucets, some c.native_currency, some c.info_url, some c.short_name, some c.chain_id, some c.network_id, some c.slip44, none, none⟩ : ChainSlots)
      ("ens", serOpt serEns c.ens)
      = .ok (⟨some c.name, some c.chain, some c.network, some c.icon, some c.rpc, some c.faucets, some c.native_currency, some c.info_url, some c.short_name, some c.chain_id, some c.network_id, some c.slip44, some c.ens, none⟩ : ChainSlots) :=
    chainStep_key_ens _ _ _ rfl (deOpt_serOpt_ens c.ens)
  have e14 : chainStep (⟨some c.name, some c.chain, some c.network, some c.icon, some c.rpc, some c.faucets, some c.native_currency, some c.info_url, some c.short_name, some c.chain_id, some c.network_id, some c.slip44, some c.ens, none⟩ : ChainSlots)
      ("explorers", Json.arr (c.explorers.map serExplorer))
      = .ok (⟨some c.name, some c.chain, some c.network, some c.icon, some c.rpc, some c.faucets, some c.native_currency, some c.info_url, some c.short_name, some c.chain_id, some c.network_id, some c.slip44, some c.ens, some c.explorers⟩ : ChainSlots) :=
    chainStep_key_explorers _ _ _ rfl (deSeq_map_explorer c.explorers)
  have hscan : scanFields chainStep (⟨none, none, none, none, none, none, none, none, none, none, none, none, none, none⟩ : ChainSlots)
      [("name", Json.str c.name), ("chain", Json.str c.chain), ("network", Json.str c.network), ("icon", serOpt Json.str c.icon), ("rpc", Json.arr (c.rpc.map Json.str)), ("faucets", Json.arr (c.faucets.map Json.str)), ("nativeCurrency", serNativeCurrency c.native_currency), ("infoURL", Json.str c.info_url), ("shortName", Json.str c.short_name), ("chainId", Json.num (c.chain_id : Int)), ("networkId", Json.num (c.network_id : Int)), ("slip44", serOpt (fun n : Nat => Json.num (n : Int)) c.slip44), ("ens", serOpt serEns c.ens), ("explorers", Json.arr (c.explorers.map serExplorer))]
      = .ok (⟨some c.name, some c.chain, some c.network, some c.icon, some c.rpc, some c.faucets, some c.native_currency, some c.info_url, some c.short_name, some c.chain_id, some c.network_id, some c.slip44, some c.ens, some c.explorers⟩ : ChainSlots) := by
    rw [scanFields_cons _ _ _ _ _ e1,
      scanFields_cons _ _ _ _ _ e2,
      scanFields_cons _ _ _ _ _ e3,
      scanFields_cons _ _ _ _ _ e4,
      scanFields_cons _ _ _ _ _ e5,
      scanFields_cons _ _ _ _ _ e6,
      scanFields_cons _ _ _ _ _ e7,
      scanFields_cons _ _ _ _ _ e8,
      scanFields_cons _ _ _ _ _ e9,
      scanFields_cons _ _ _ _ _ e10,
      scanFields_cons _ _ _ _ _ e11,
      scanFields_cons _ _ _ _ _ e12,
      scanFields_cons _ _ _ _ _ e13,
      scanFields_cons _ _ _ _ _ e14]
    rfl
  simp only [serChain, deChain]
  rw [hscan]
  rfl


/-- The fixed set of wire keys the `Chain` deserializer recognizes. -/
def chainKnownKeys : List String :=
  ["name", "chain", "network", "icon", "rpc", "faucets", "nativeCurrency", "infoURL",
   "shortName", "chainId", "networkId", "slip44", "ens", "explorers"]

theorem chainStep_unknown_key (st : ChainSlots) (k : String) (v : Json)
    (hk : k ∉ chainKnownKeys) : chainStep st (k, v) = .ok st := by
  simp only [chainKnownKeys, List.mem_cons, not_or] at hk
  obtain ⟨n1, n2, n3, n4, n5, n6, n7, n8, n9, n10, n11, n12, n13, n14, -⟩ := hk
  simp [chainStep, n1, n2, n3, n4, n5, n6, n7, n8, n9, n10, n11, n12, n13, n14]

/-- A well-formed chain document (the spec's §8 concrete scenario), with no
`explorers` key. -/
def exFieldsNoExplorers : List (String × Json) :=
  [("name", .str "Ethereum Mainnet"), ("chain", .str "ETH"), ("network", .str "mainnet"),
   ("rpc", .arr [.str "https://rpc.example"]),
   ("faucets", .arr []),
   ("nativeCurrency", .obj [("name", .str "Ether"), ("symbol", .str "ETH"),
     ("decimals", .num 18)]),
   ("infoURL", .str "https://ethereum.org"), ("shortName", .str "eth"),
   ("chainId", .num 1), ("networkId", .num 1)]

/-- The record `exFieldsNoExplorers` decodes to. -/
def exChain : Chain :=
  { name := "Ethereum Mainnet", chain := "ETH", network := "mainnet",
    icon := none, rpc := ["https://rpc.example"], faucets := [],
    native_currency := { name := "Ether", symbol := "ETH", decimals := 18 },
    info_url := "https://ethereum.org", short_name := "eth", chain_id := 1, network_id := 1,
    slip44 := none, ens := none, explorers := [] }

/-- The §8 document, `explorers` present and empty. -/
def exDoc : Json := .obj (exFieldsNoExplorers ++ [("explorers", .arr [])])

/-- A chain document whose `nativeCurrency.decimals` is `-1`. -/
def exDocNegDecimals : Json := .obj
  [("name", .str "Neg"), ("chain", .str "NEG"), ("network", .str "neg"),
   ("rpc", .arr []), ("faucets", .arr []),
   ("nativeCurrency", .obj [("name", .str "N"), ("symbol", .str "N"),
     ("decimals", .num (-1))]),
   ("infoURL", .str "https://neg.example"), ("shortName", .str "neg"),
   ("chainId", .num 2), ("networkId", .num 2), ("explorers", .arr [])]

/-- The record `exDocNegDecimals` decodes to. -/
def exChainNegDecimals : Chain :=
  { name := "Neg", chain := "NEG", network := "neg",
    icon := none, rpc := [], faucets := [],
    native_currency := { name := "N", symbol := "N", decimals := -1 },
    info_url := "https://neg.example", short_name := "neg", chain_id := 2, network_id := 2,
    slip44 := none, ens := none, explorers := [] }

/-- The same document with `chainId` set to `-1` instead. -/
def exDocNegChainId : Json := .obj
  [("name", .str "Neg"), ("chain", .str "NEG"), ("network", .str "neg"),
   ("rpc", .arr []), ("faucets", .arr []),
   ("nativeCurrency", .obj [("name", .str "N"), ("symbol", .str "N"),
     ("decimals", .num 18)]),
   ("infoURL", .str "https://neg.example"), ("shortName", .str "neg"),
   ("chainId", .num (-1)), ("networkId", .num 2), ("explorers", .arr [])]

/-- C7: a JSON document that decodes successfully while lacking the
`explorers` key yields a record whose explorer list is empty
(`#[serde(default)]`). -/
theorem decode_missing_explorers_empty (fields : List (String × Json)) (c : Chain)
    (h : deChain (.obj fields) = .ok c)
    (hmem : "explorers" ∉ fields.map Prod.fst) : c.explorers = [] := by
  simp only [deChain] at h
  cases hscan : scanFields chainStep {} fields with
  | error e => rw [hscan] at h; exact absurd h (by simp)
  | ok st =>
    have hfin : chainFinish st = .ok c := by rw [hscan] at h; exact h
    have hinv : SlotsWF st ∧ st.explorers = none :=
      scanFields_invariant (fun s => SlotsWF s ∧ s.explorers = none) chainStep fields
        (fun a b c' hb hok hprev =>
          ⟨(chainStep_ok_main a b c' hok hprev.1).1, by
            rw [(chainStep_ok_main a b c' hok hprev.1).2
              (fun heq => hmem (heq ▸ List.mem_map_of_mem Prod.fst hb)), hprev.2]⟩)
        {} st hscan
        ⟨⟨fun x hx => by simp at hx, fun x hx => by simp at hx,
          fun x hx => by simp at hx, fun x hx => by simp at hx⟩, rfl⟩
    obtain ⟨-, -, -, -, -, -, -, -, -, -, -, -, -, h14⟩ :=
      chainFinish_ok_fields st c hfin
    rw [hinv.2] at h14
    simpa using h14.symm

/-- C7 witness: the §8 document without its `explorers` key decodes to the
expected record, whose explorer list is empty. -/
theorem decode_missing_explorers_empty_witness :
    deChain (.obj exFieldsNoExplorers) = .ok exChain ∧ exChain.explorers = [] :=
  ⟨rfl, decode_missing_explorers_empty exFieldsNoExplorers exChain rfl (by decide)⟩

/-- C8: any record obtained by a successful decode re-encodes to a document
that decodes back to the same record. -/
theorem decode_encode_roundtrip (j : Json) (c : Chain) (h : deChain j = .ok c) :
    deChain (serChain c) = .ok c := by
  obtain ⟨h1, h2, h3, h4⟩ := deChain_wf j c h
  exact deChain_serChain c h1 h2 h3 h4.1 h4.2

/-- C8 witness: the §8 document decodes, and its record round-trips. -/
theorem decode_encode_roundtrip_witness :
    deChain exDoc = .ok exChain ∧ deChain (serChain exChain) = .ok exChain :=
  ⟨rfl, decode_encode_roundtrip exDoc exChain rfl⟩

/-- C9: inserting a key outside the fixed field set anywhere in a document
leaves the decode result unchanged (serde-derive ignores unknown keys). -/
theorem decode_ignores_unknown_keys (pre post : List (String × Json)) (k : String)
    (v : Json) (hk : k ∉ chainKnownKeys) :
    deChain (.obj (pre ++ (k, v) :: post)) = deChain (.obj (pre ++ post)) := by
  simp only [deChain]
  rw [scanFields_skip chainStep pre post (k, v) (fun st => chainStep_unknown_key st k v hk)]

/-- C9 witness: an extra unknown key in the §8 document is ignored. -/
theorem decode_ignores_unknown_keys_witness :
    deChain (.obj ([] ++ ("zzz", Json.num 0) :: exFieldsNoExplorers))
      = deChain (.obj ([] ++ exFieldsNoExplorers)) :=
  decode_ignores_unknown_keys [] exFieldsNoExplorers "zzz" (Json.num 0) (by decide)

/-- C10: `nativeCurrency.decimals` is decoded as a signed 64-bit integer, so
a document with `decimals = -1` decodes successfully, while the same
document with `chainId = -1` is rejected (u64 field). -/
theorem decode_negative_decimals_ok :
    deChain exDocNegDecimals = .ok exChainNegDecimals ∧
    exChainNegDecimals.native_currency.decimals = -1 ∧
    deChain exDocNegChainId = .error (.invalidType "u64") :=
  ⟨rfl, rfl, rfl⟩

/-! ### Association-list lookup lemmas for the catalog -/

theorem lookup_cons_eq (a k : Nat) (c : Chain) (l : List (Nat × Chain)) :
    ((a, c) :: l).lookup k = if k = a then some c else l.lookup k := by
  simp only [List.lookup]
  cases h : (k == a) with
  | true =>
    simp only [beq_iff_eq] at h
    rw [if_pos h]
  | false =>
    simp only [beq_eq_false_iff_ne, ne_eq] at h
    rw [if_neg h]

theorem lookup_isSome_iff (l : List (Nat × Chain)) (k : Nat) :
    (l.lookup k).isSome = true ↔ k ∈ l.map Prod.fst := by
  induction l with
  | nil => simp [List.lookup]
  | cons p rest ih =>
    obtain ⟨a, c⟩ := p
    rw [lookup_cons_eq]
    by_cases h : k = a
    · simp [h]
    · simp [h, ih]

/-! ### Inversion lemmas for one iteration of the `CHAINS` build loop -/

theorem buildStep_nonfile (d : List DirEntry) (acc : List (Nat × Chain)) (e : DirEntry)
    (h : e.isFile = false) : buildStep d acc e = .ok acc := by
  simp [buildStep, h]

theorem buildStep_bad_name (d : List DirEntry) (acc : List (Nat × Chain)) (e : DirEntry)
    (hf : e.isFile = true) (hid : extractChainId e.name = none) :
    ∀ acc', buildStep d acc e ≠ .ok acc' := by
  intro acc' h
  cases hmid : stripName e.name with
  | none => simp [buildStep, hf, hmid] at h
  | some mid =>
    unfold extractChainId at hid
    rw [hmid] at hid
    simp only [Option.some_bind] at hid
    simp [buildStep, hf, hmid, hid] at h

theorem buildStep_ff_error (d : List DirEntry) (acc : List (Nat × Chain)) (e : DirEntry)
    (i : Nat) (err : Error) (hf : e.isFile = true)
    (hid : extractChainId e.name = some i) (hff : Chain.from_file d i = .error err) :
    ∀ acc', buildStep d acc e ≠ .ok acc' := by
  intro acc' h
  obtain ⟨mid, hmid, hparse⟩ := Option.bind_eq_some.mp hid
  simp [buildStep, hf, hmid, hparse, hff] at h

theorem buildStep_dup (d : List DirEntry) (acc : List (Nat × Chain)) (e : DirEntry)
    (i : Nat) (hf : e.isFile = true) (hid : extractChainId e.name = some i)
    (hdup : (acc.lookup i).isSome = true) :
    ∀ acc', buildStep d acc e ≠ .ok acc' := by
  intro acc' h
  obtain ⟨mid, hmid, hparse⟩ := Option.bind_eq_some.mp hid
  cases hff : Chain.from_file d i with
  | error err => simp [buildStep, hf, hmid, hparse, hff] at h
  | ok chain => simp [buildStep, hf, hmid, hparse, hff, hdup] at h

theorem buildStep_ok_file (d : List DirEntry) (acc : List (Nat × Chain)) (e : DirEntry)
    (acc' : List (Nat × Chain)) (i : Nat) (hf : e.isFile = true)
    (hid : extractChainId e.name = some i) (h : buildStep d acc e = .ok acc') :
    ∃ chain, Chain.from_file d i = .ok chain ∧ (acc.lookup i).isSome = false ∧
      acc' = (i, chain) :: acc := by
  obtain ⟨mid, hmid, hparse⟩ := Option.bind_eq_some.mp hid
  cases hff : Chain.from_file d i with
  | error err => simp [buildStep, hf, hmid, hparse, hff] at h
  | ok chain =>
    cases hdup : (acc.lookup i).isSome with
    | true => simp [buildStep, hf, hmid, hparse, hff, hdup] at h
    | false =>
      simp [buildStep, hf, hmid, hparse, hff, hdup] at h
      exact ⟨chain, rfl, rfl, h.symm⟩

theorem buildStep_ok_mono (d : List DirEntry) (acc : List (Nat × Chain)) (e : DirEntry)
    (acc' : List (Nat × Chain)) (k : Nat) (h : buildStep d acc e = .ok acc')
    (hk : (acc.lookup k).isSome = true) : (acc'.lookup k).isSome = true := by
  cases hf : e.isFile with
  | false =>
    rw [buildStep_nonfile d acc e hf] at h
    injection h with h'
    rw [← h']
    exact hk
  | true =>
    cases hid : extractChainId e.name with
    | none => exact absurd h (buildStep_bad_name d acc e hf hid acc')
    | some i =>
      obtain ⟨chain, -, -, rfl⟩ := buildStep_ok_file d acc e acc' i hf hid h
      rw [lookup_cons_eq]
      by_cases hki : k = i
      · rw [if_pos hki]; rfl
      · rw [if_neg hki]; exact hk

/-! ### Global lemmas about the `CHAINS` build loop -/

theorem buildLoop_ne_ok_of_bad (d : List DirEntry) (e : DirEntry)
    (hbad : ∀ acc acc', buildStep d acc e ≠ .ok acc') :
    ∀ l, e ∈ l → ∀ acc m, buildLoop d acc l ≠ .ok m := by
  intro l
  induction l with
  | nil => intro he; exact absurd he (List.not_mem_nil e)
  | cons x rest ih =>
    intro he acc m h
    simp only [buildLoop] at h
    cases hstep : buildStep d acc x with
    | error p => rw [hstep] at h; simp at h
    | ok acc1 =>
      rw [hstep] at h
      rcases List.mem_cons.mp he with rfl | hmem
      · exact hbad acc acc1 hstep
      · exact ih hmem acc1 m h

theorem buildLoop_dup_aborts (d : List DirEntry) (b : DirEntry) (i : Nat)
    (hbf : b.isFile = true) (hbe : extractChainId b.name = some i) :
    ∀ l acc, b ∈ l → (acc.lookup i).isSome = true → ∀ m, buildLoop d acc l ≠ .ok m := by
  intro l
  induction l with
  | nil => intro acc hb; exact absurd hb (List.not_mem_nil b)
  | cons x rest ih =>
    intro acc hb hdup m h
    simp only [buildLoop] at h
    cases hstep : buildStep d acc x with
    | error p => rw [hstep] at h; simp at h
    | ok acc1 =>
      rw [hstep] at h
      rcases List.mem_cons.mp hb with rfl | hmem
      · exact buildStep_dup d acc b i hbf hbe hdup acc1 hstep
      · exact ih acc1 hmem (buildStep_ok_mono d acc x acc1 i hstep hdup) m h

theorem buildLoop_append (d : List DirEntry) (l₁ l₂ : List DirEntry) :
    ∀ acc, buildLoop d acc (l₁ ++ l₂) =
      match buildLoop d acc l₁ with
      | .error p => .error p
      | .ok acc1 => buildLoop d acc1 l₂ := by
  induction l₁ with
  | nil => intro acc; rfl
  | cons x rest ih =>
    intro acc
    simp only [List.cons_append, buildLoop]
    cases hstep : buildStep d acc x with
    | error p => rfl
    | ok acc1 => exact ih acc1

theorem buildLoop_keys (d : List DirEntry) :
    ∀ l acc m, buildLoop d acc l = .ok m →
      (∀ k, (m.lookup k).isSome = true ↔
        ((acc.lookup k).isSome = true ∨
          ∃ e, e ∈ l ∧ e.isFile = true ∧ extractChainId e.name = some k)) ∧
      ((acc.map Prod.fst).Nodup → (m.map Prod.fst).Nodup) := by
  intro l
  induction l with
  | nil =>
    intro acc m h
    simp only [buildLoop] at h
    injection h with h'
    subst h'
    exact ⟨fun k => by simp, id⟩
  | cons x rest ih =>
    intro acc m h
    simp only [buildLoop] at h
    cases hstep : buildStep d acc x with
    | error p => rw [hstep] at h; simp at h
    | ok acc1 =>
      rw [hstep] at h
      obtain ⟨ihiff, ihnd⟩ := ih acc1 m h
      cases hf : x.isFile with
      | false =>
        have hacc : acc1 = acc := by
          have hnf := buildStep_nonfile d acc x hf
          rw [hnf] at hstep
          injection hstep with h'
          exact h'.symm
        subst hacc
        refine ⟨fun k => ?_, ihnd⟩
        rw [ihiff k]
        constructor
        · rintro (h1 | ⟨e, he, hef, hei⟩)
          · exact Or.inl h1
          · exact Or.inr ⟨e, List.mem_cons_of_mem x he, hef, hei⟩
        · rintro (h1 | ⟨e, he, hef, hei⟩)
          · exact Or.inl h1
          · rcases List.mem_cons.mp he with rfl | hmem
            · rw [hf] at hef; exact absurd hef (by simp)
            · exact Or.inr ⟨e, hmem, hef, hei⟩
      | true =>
        cases hid : extractChainId x.name with
        | none => exact absurd hstep (buildStep_bad_name d acc x hf hid acc1)
        | some i =>
          obtain ⟨chain, hff, hfree, rfl⟩ := buildStep_ok_file d acc x acc1 i hf hid hstep
          constructor
          · intro k
            rw [ihiff k, lookup_cons_eq]
            by_cases hk : k = i
            · apply iff_of_true
              · left
                rw [if_pos hk]
                rfl
              · right
                exact ⟨x, List.mem_cons_self x rest, hf, by rw [hid, hk]⟩
            · rw [if_neg hk]
              constructor
              · rintro (h1 | ⟨e, he, hef, hei⟩)
                · exact Or.inl h1
                · exact Or.inr ⟨e, List.mem_cons_of_mem x he, hef, hei⟩
              · rintro (h1 | ⟨e, he, hef, hei⟩)
                · exact Or.inl h1
                · rcases List.mem_cons.mp he with rfl | hmem
                  · rw [hid] at hei
                    injection hei with hik
                    exact absurd hik.symm hk
                  · exact Or.inr ⟨e, hmem, hef, hei⟩
          · intro hnd
            apply ihnd
            simp only [List.map_cons, List.nodup_cons]
            refine ⟨fun hmem => ?_, hnd⟩
            have h2 := (lookup_isSome_iff acc i).mpr hmem
            rw [hfree] at h2
            exact Bool.false_ne_true h2

/-! ### `Chain::from_file` error classification -/

/-- C2: when the file opens but its bytes are not valid JSON, or are valid
JSON that does not deserialize to the record shape, `Chain::from_file`
fails with a `Kind::Json` error carrying the cause, and never returns a
record. -/
theorem from_file_decode_failure_json_error (d : List DirEntry) (id : Nat)
    (r : ReadOutcome)
    (hopen : openInDir d (canonicalFileName id) = .ok r)
    (hbad : (∃ msg, r = .invalidJson msg) ∨
      (∃ j e, r = .json j ∧ deChain j = .error e)) :
    ∃ cause, Chain.from_file d id = .error { kind := Kind.json, source := some cause } ∧
      ∀ c, Chain.from_file d id ≠ .ok c := by
  rcases hbad with ⟨msg, rfl⟩ | ⟨j, e, rfl, hde⟩
  · have hff : Chain.from_file d id = .error (error.deserialize msg) := by
      simp only [Chain.from_file, hopen]
    exact ⟨msg, hff, fun c hc => by rw [hff] at hc; simp at hc⟩
  · have hff : Chain.from_file d id = .error (error.deserialize (deErrMsg e)) := by
      simp only [Chain.from_file, hopen, hde]
    exact ⟨deErrMsg e, hff, fun c hc => by rw [hff] at hc; simp at hc⟩

/-- A directory whose `eip155-1.json` holds bytes that are not valid JSON. -/
def exDirBadContent : List DirEntry :=
  [⟨"eip155-1.json", .file, .invalidJson "expected value at line 1 column 1"⟩]

/-- C2 witness: reading the invalid-JSON file yields the `Kind::Json` error
with its cause. -/
theorem from_file_decode_failure_json_error_witness :
    Chain.from_file exDirBadContent 1 =
      .error { kind := Kind.json, source := some "expected value at line 1 column 1" } := by
  have h := from_file_decode_failure_json_error exDirBadContent 1
    (.invalidJson "expected value at line 1 column 1") rfl (Or.inl ⟨_, rfl⟩)
  rfl

/-- A directory where the path for chain id 9 is a directory: `File::open`
succeeds on it (Linux), but the first read faults with EISDIR. -/
def exDirWithDir : List DirEntry := [⟨"eip155-9.json", .dir, .json .null⟩]

/-- C5 counterexample: the underlying storage cannot be read (an I/O fault
after a successful open — here EISDIR on an opened directory), yet the
resulting error is of `Kind::Json`, not `Kind::File`: serde_json wraps the
read fault and `from_file` maps it through `error::deserialize`. -/
theorem from_file_read_fault_json_counterexample :
    openInDir exDirWithDir (canonicalFileName 9)
      = .ok (.ioFault "Is a directory (os error 21)") ∧
    Chain.from_file exDirWithDir 9
      = .error { kind := Kind.json, source := some "Is a directory (os error 21)" } :=
  ⟨rfl, rfl⟩

/-- C5 (amended): `Chain::from_file` fails with `Kind::File` exactly when
the file cannot be opened; once the file is open, every failure — a read
I/O fault just like a parse or shape failure — is of `Kind::Json`; and
every failure carries its underlying cause. -/
theorem from_file_error_kind_classification (d : List DirEntry) (id : Nat) :
    ((∃ io, openInDir d (canonicalFileName id) = .error io) ↔
      (∃ cause, Chain.from_file d id = .error { kind := Kind.file, source := some cause })) ∧
    (∀ r, openInDir d (canonicalFileName id) = .ok r →
      ∀ err, Chain.from_file d id = .error err → err.kind = Kind.json) ∧
    (∀ err, Chain.from_file d id = .error err → err.source.isSome = true) := by
  refine ⟨⟨?_, ?_⟩, ?_, ?_⟩
  · rintro ⟨io, hio⟩
    exact ⟨io, by simp only [Chain.from_file, hio]; rfl⟩
  · rintro ⟨cause, hfe⟩
    cases hop : openInDir d (canonicalFileName id) with
    | error io => exact ⟨io, rfl⟩
    | ok r =>
      exfalso
      cases r with
      | ioFault cause2 =>
        have hff : Chain.from_file d id = .error (error.deserialize cause2) := by
          simp only [Chain.from_file, hop]
        rw [hff] at hfe
        injection hfe with h'
        exact absurd (congrArg Error.kind h') (by simp [error.deserialize])
      | invalidJson msg =>
        have hff : Chain.from_file d id = .error (error.deserialize msg) := by
          simp only [Chain.from_file, hop]
        rw [hff] at hfe
        injection hfe with h'
        exact absurd (congrArg Error.kind h') (by simp [error.deserialize])
      | json j =>
        cases hde : deChain j with
        | error e =>
          have hff : Chain.from_file d id = .error (error.deserialize (deErrMsg e)) := by
            simp only [Chain.from_file, hop, hde]
          rw [hff] at hfe
          injection hfe with h'
          exact absurd (congrArg Error.kind h') (by simp [error.deserialize])
        | ok c =>
          have hff : Chain.from_file d id = .ok c := by
            simp only [Chain.from_file, hop, hde]
          rw [hff] at hfe
          simp at hfe
  · intro r hop err hfe
    cases r with
    | ioFault cause =>
      have hff : Chain.from_file d id = .error (error.deserialize cause) := by
        simp only [Chain.from_file, hop]
      rw [hff] at hfe
      injection hfe with h'
      rw [← h']
      rfl
    | invalidJson msg =>
      have hff : Chain.from_file d id = .error (error.deserialize msg) := by
        simp only [Chain.from_file, hop]
      rw [hff] at hfe
      injection hfe with h'
      rw [← h']
      rfl
    | json j =>
      cases hde : deChain j with
      | error e =>
        have hff : Chain.from_file d id = .error (error.deserialize (deErrMsg e)) := by
          simp only [Chain.from_file, hop, hde]
        rw [hff] at hfe
        injection hfe with h'
        rw [← h']
        rfl
      | ok c =>
        have hff : Chain.from_file d id = .ok c := by
          simp only [Chain.from_file, hop, hde]
        rw [hff] at hfe
        simp at hfe
  · intro err hfe
    cases hop : openInDir d (canonicalFileName id) with
    | error io =>
      have hff : Chain.from_file d id = .error (error.open_file io) := by
        simp only [Chain.from_file, hop]
      rw [hff] at hfe
      injection hfe with h'
      rw [← h']
      rfl
    | ok r =>
      cases r with
      | ioFault cause =>
        have hff : Chain.from_file d id = .error (error.deserialize cause) := by
          simp only [Chain.from_file, hop]
        rw [hff] at hfe
        injection hfe with h'
        rw [← h']
        rfl
      | invalidJson msg =>
        have hff : Chain.from_file d id = .error (error.deserialize msg) := by
          simp only [Chain.from_file, hop]
        rw [hff] at hfe
        injection hfe with h'
        rw [← h']
        rfl
      | json j =>
        cases hde : deChain j with
        | error e =>
          have hff : Chain.from_file d id = .error (error.deserialize (deErrMsg e)) := by
            simp only [Chain.from_file, hop, hde]
          rw [hff] at hfe
          injection hfe with h'
          rw [← h']
          rfl
        | ok c =>
          have hff : Chain.from_file d id = .ok c := by
            simp only [Chain.from_file, hop, hde]
          rw [hff] at hfe
          simp at hfe

/-- C5 witness: opening a chain file in an empty directory fails with the
`Kind::File` error carrying the I/O cause. -/
theorem from_file_error_kind_classification_witness :
    Chain.from_file ([] : List DirEntry) 1 =
      .error { kind := Kind.file, source := some "No such file or directory (os error 2)" } := by
  have h := (from_file_error_kind_classification ([] : List DirEntry) 1).1.mp
    ⟨"No such file or directory (os error 2)", rfl⟩
  rfl

/-- C6: any chain id that no regular file of the data directory encodes is
absent from the finished catalog, and `Chain::get` returns `none` for it —
an ordinary empty result, not an error. -/
theorem get_absent_id_none (d : List DirEntry) (m : List (Nat × Chain)) (id : Nat)
    (hb : CHAINS d = .ok m)
    (habs : ¬ ∃ e, e ∈ d ∧ e.isFile = true ∧ extractChainId e.name = some id) :
    Chain.get m id = none := by
  have hk := (buildLoop_keys d d [] m hb).1 id
  unfold Chain.get
  cases hl : m.lookup id with
  | none => rfl
  | some c =>
    exfalso
    have hs : (m.lookup id).isSome = true := by rw [hl]; rfl
    rcases hk.mp hs with h1 | h2
    · simp [List.lookup] at h1
    · exact habs h2

/-- C6 witness: `get 42` on the catalog of an empty directory is `none`. -/
theorem get_absent_id_none_witness : Chain.get [] 42 = none :=
  get_absent_id_none [] [] 42 rfl (by simp)

/-- C1 (amended): every chain id encoded in a regular file's name of a
directory whose build succeeded is a key of the catalog, so `Chain::get`
returns `Some` record for it; the record's `chain_id` field comes from the
file's JSON body and is not validated against the requested id. -/
theorem get_some_for_listed_chain_id (d : List DirEntry) (m : List (Nat × Chain))
    (e : DirEntry) (id : Nat) (hb : CHAINS d = .ok m) (he : e ∈ d)
    (hf : e.isFile = true) (hid : extractChainId e.name = some id) :
    ∃ c, Chain.get m id = some c := by
  have hk := (buildLoop_keys d d [] m hb).1 id
  have hs : (m.lookup id).isSome = true := hk.mpr (Or.inr ⟨e, he, hf, hid⟩)
  unfold Chain.get
  exact Option.isSome_iff_exists.mp hs

/-- A directory with one file correctly named for chain id 1. -/
def exDirOk : List DirEntry := [⟨"eip155-1.json", .file, .json exDoc⟩]

/-- C1 witness: `get 1` on the catalog built from `exDirOk` is `Some`. -/
theorem get_some_for_listed_chain_id_witness :
    Chain.get [(1, exChain)] 1 = some exChain := by
  have h := get_some_for_listed_chain_id exDirOk [(1, exChain)]
    ⟨"eip155-1.json", .file, .json exDoc⟩ 1 rfl (by simp [exDirOk]) rfl rfl
  rfl

/-- Body of `eip155-5.json` whose `chainId` field is 7, not 5. -/
def exDoc7 : Json := .obj
  [("name", .str "Mismatch"), ("chain", .str "MIS"), ("network", .str "mis"),
   ("rpc", .arr []), ("faucets", .arr []),
   ("nativeCurrency", .obj [("name", .str "M"), ("symbol", .str "M"),
     ("decimals", .num 18)]),
   ("infoURL", .str "https://mis.example"), ("shortName", .str "mis"),
   ("chainId", .num 7), ("networkId", .num 7), ("explorers", .arr [])]

/-- The record `exDoc7` decodes to (`chain_id = 7`). -/
def exChain7 : Chain :=
  { name := "Mismatch", chain := "MIS", network := "mis",
    icon := none, rpc := [], faucets := [],
    native_currency := { name := "M", symbol := "M", decimals := 18 },
    info_url := "https://mis.example", short_name := "mis", chain_id := 7, network_id := 7,
    slip44 := none, ens := none, explorers := [] }

/-- A directory whose file name encodes id 5 but whose body says 7. -/
def exDirMismatch : List DirEntry := [⟨"eip155-5.json", .file, .json exDoc7⟩]

/-- C1 counterexample: the build accepts a file whose name encodes id 5
while its body's `chainId` is 7; `get 5` then returns a record whose
`chain_id` field is 7, not the requested 5. -/
theorem get_chain_id_mismatch_counterexample :
    extractChainId "eip155-5.json" = some 5 ∧
    CHAINS exDirMismatch = .ok [(5, exChain7)] ∧
    Chain.get [(5, exChain7)] 5 = some exChain7 ∧
    exChain7.chain_id = 7 :=
  ⟨rfl, rfl, rfl, rfl⟩

/-! ### Duplicate chain ids abort the build -/

theorem dup_positional (d : List DirEntry) (l₁ l₂ : List DirEntry) (a b : DirEntry)
    (i : Nat) (hd : d = l₁ ++ a :: l₂) (hb : b ∈ l₂) (haf : a.isFile = true)
    (hbf : b.isFile = true) (hia : extractChainId a.name = some i)
    (hib : extractChainId b.name = some i) :
    ∀ m, CHAINS d ≠ .ok m := by
  intro m h
  unfold CHAINS at h
  rw [hd] at h
  rw [buildLoop_append] at h
  cases h1 : buildLoop (l₁ ++ a :: l₂) [] l₁ with
  | error p => rw [h1] at h; simp at h
  | ok acc1 =>
    rw [h1] at h
    simp only [buildLoop] at h
    cases h2 : buildStep (l₁ ++ a :: l₂) acc1 a with
    | error p => rw [h2] at h; simp at h
    | ok acc2 =>
      rw [h2] at h
      obtain ⟨chain, -, -, rfl⟩ := buildStep_ok_file _ acc1 a acc2 i haf hia h2
      exact buildLoop_dup_aborts _ b i hbf hib l₂ _ hb
        (by rw [lookup_cons_eq, if_pos rfl]; rfl) m h

/-- C3: if two regular-file entries (at distinct positions of the listing)
encode the same chain id, the whole build panics; consequently the keys of
any successfully built catalog are pairwise distinct. -/
theorem build_duplicate_chain_id_aborts :
    (∀ (d l₁ l₂ : List DirEntry) (a b : DirEntry) (i : Nat),
      d = l₁ ++ a :: l₂ → b ∈ l₂ → a.isFile = true → b.isFile = true →
      extractChainId a.name = some i → extractChainId b.name = some i →
      ∀ m, CHAINS d ≠ .ok m) ∧
    (∀ d m, CHAINS d = .ok m → (m.map Prod.fst).Nodup) :=
  ⟨fun d l₁ l₂ a b i h1 h2 h3 h4 h5 h6 => dup_positional d l₁ l₂ a b i h1 h2 h3 h4 h5 h6,
   fun d m hb => (buildLoop_keys d d [] m hb).2 (by simp)⟩

/-- A directory with two names (`eip155-1.json`, `eip155-01.json`) that both
encode chain id 1. -/
def exDirDup : List DirEntry :=
  [⟨"eip155-1.json", .file, .json exDoc⟩, ⟨"eip155-01.json", .file, .json exDoc⟩]

/-- C3 witness: building from the duplicate directory panics with the
duplicate-id panic. -/
theorem build_duplicate_chain_id_aborts_witness :
    CHAINS exDirDup = .error (BuildPanic.duplicateChainId 1) := by
  have h := build_duplicate_chain_id_aborts.1 exDirDup []
    [⟨"eip155-01.json", .file, .json exDoc⟩] ⟨"eip155-1.json", .file, .json exDoc⟩
    ⟨"eip155-01.json", .file, .json exDoc⟩ 1 rfl (by simp) rfl rfl rfl rfl
  rfl

/-! ### Malformed file names and the build -/

/-- Whether a file name matches the naming convention
`eip155-<digits>.json` with a `u64`-range id: the prefix and suffix strip,
the middle is one or more ASCII digits, and its value fits in `u64`. -/
def matchesEip155Pattern (fileName : String) : Bool :=
  match stripName fileName with
  | none => false
  | some mid =>
    !mid.data.isEmpty && mid.data.all Char.isDigit && decide (digitsVal mid.data < 2 ^ 64)

/-- A regular file whose name parses only via the leading `+` sign, next
to a symlink carrying the canonical name for the same id. -/
def exDirSymlink : List DirEntry :=
  [⟨"eip155-+1.json", .file, .json exDoc⟩, ⟨"eip155-1.json", .symlinkFile, .json exDoc⟩]

/-- C4 counterexample: `eip155-+1.json` is a regular file whose name does
not match `eip155-<digits>.json`, yet the build completes successfully:
`"+1"` parses to 1 (Rust's `u64` parser accepts one leading `+`), the
symlink entry `eip155-1.json` is skipped by the loop's `is_file` test but
is followed by `File::open`, and the record is inserted exactly once. -/
theorem build_malformed_name_no_abort_counterexample :
    (⟨"eip155-+1.json", .file, .json exDoc⟩ : DirEntry) ∈ exDirSymlink ∧
    DirEntry.isFile ⟨"eip155-+1.json", .file, .json exDoc⟩ = true ∧
    matchesEip155Pattern "eip155-+1.json" = false ∧
    extractChainId "eip155-+1.json" = some 1 ∧
    CHAINS exDirSymlink = .ok [(1, exChain)] :=
  ⟨by simp [exDirSymlink], rfl, rfl, rfl, rfl⟩

/-- C4 (amended): a regular-file entry whose name the build cannot extract
a chain id from — the `eip155-` prefix or `.json` suffix does not strip,
or the middle is rejected by Rust's `u64` parser (empty, a `-` sign, a
non-digit beyond one leading `+`, or a value out of `u64` range) — makes
the whole build panic; such a file is never skipped. -/
theorem build_unparsable_file_name_aborts (d : List DirEntry) (e : DirEntry)
    (he : e ∈ d) (hf : e.isFile = true)
    (hid : extractChainId e.name = none) :
    ∀ m, CHAINS d ≠ .ok m := by
  intro m h
  exact buildLoop_ne_ok_of_bad d e
    (fun acc => buildStep_bad_name d acc e hf hid) d he [] m h

/-- A directory containing one file with a malformed name. -/
def exDirMalformed : List DirEntry := [⟨"bad.json", .file, .json exDoc⟩]

/-- C4 witness: building from the malformed-name directory panics with the
bad-file-name panic. -/
theorem build_unparsable_file_name_aborts_witness :
    CHAINS exDirMalformed = .error (BuildPanic.badFileName "bad.json") := by
  have h := build_unparsable_file_name_aborts exDirMalformed
    ⟨"bad.json", .file, .json exDoc⟩ (by simp [exDirMalformed]) rfl rfl
  rfl

end EvmChains
